import Mathlib

set_option maxRecDepth 100000

/-!
# Verification of the GS1 fixed-set membership validator (`lint_iso3166.c`)

A shallow embedding of `gs1_lint_iso3166` from `src/lint_iso3166.c` of the
GS1 Syntax Dictionary, together with proofs of the testable properties of
the fixed-set membership validator pattern.

Modelling conventions:
* A null-terminated C string is a `List Char` (no interior NUL); `strlen`
  is `List.length`.
* `strcmp` is modelled up to sign (the C standard only specifies the sign
  of its result, and the code only inspects the sign): it returns `-1`,
  `0` or `1` comparing character values ordinally, with the terminating
  NUL making a proper prefix compare less than the longer string.
* The `size_t *err_pos` / `size_t *err_len` out-pointers are modelled as
  `Option Nat` cells: `none` is a NULL pointer, `some v` is a non-NULL
  pointer whose pointee currently holds `v`.  The function returns the
  result code together with the post-call contents of both cells, so a
  cell that is not written retains its prior value.
* The C `while (s < e)` loop is modelled as a fuel-indexed recursion that
  returns `none` if the fuel runs out mid-loop; the termination theorem
  shows fuel `e - s` always suffices, and the lookup entry point supplies
  that much fuel.
-/

namespace GS1

/-- The sign of C `strcmp` on two NUL-free byte strings: characters are
compared ordinally, and at the end of either string the terminating NUL
(value 0) compares below every non-NUL character, so a proper prefix is
smaller. -/
def strcmp : List Char → List Char → Int
  | [], [] => 0
  | [], _ :: _ => -1
  | _ :: _, [] => 1
  | c1 :: s1, c2 :: s2 =>
    if c1 < c2 then -1
    else if c2 < c1 then 1
    else strcmp s1 s2

/-- Result codes of a linter, from `gs1syntaxdictionary.h`: the subset
relevant to `gs1_lint_iso3166` (`GS1_LINTER_NOT_ISO3166` is this linter's
`NOT_IN_SET` outcome). -/
inductive gs1_lint_err_t where
  | GS1_LINTER_OK
  | GS1_LINTER_NOT_ISO3166
deriving DecidableEq

export gs1_lint_err_t (GS1_LINTER_OK GS1_LINTER_NOT_ISO3166)

/-- Observable outcome of one call: the returned code and the post-call
contents of the two out-parameter cells (`none` = pointer was NULL). -/
structure LintOutcome where
  ret : gs1_lint_err_t
  errPosCell : Option Nat
  errLenCell : Option Nat
deriving DecidableEq

/-- The static `iso3166` Reference Set table from `lint_iso3166.c`
(lines 97-116), verbatim: ISO 3166 num-3 country codes "004" .. "894". -/
def iso3166 : List (List Char) :=
  ["004", "008", "010", "012", "016", "020", "024", "028", "031", "032", "036", "040", "044", "048",
   "050", "051", "052", "056", "060", "064", "068", "070", "072", "074", "076", "084", "086", "090", "092", "096",
   "100", "104", "108", "112", "116", "120", "124", "132", "136", "140", "144", "148",
   "152", "156", "158", "162", "166", "170", "174", "175", "178", "180", "184", "188", "191", "192", "196",
   "203", "204", "208", "212", "214", "218", "222", "226", "231", "232", "233", "234", "238", "239", "242", "246", "248",
   "250", "254", "258", "260", "262", "266", "268", "270", "275", "276", "288", "292", "296",
   "300", "304", "308", "312", "316", "320", "324", "328", "332", "334", "336", "340", "344", "348",
   "352", "356", "360", "364", "368", "372", "376", "380", "384", "388", "392", "398",
   "400", "404", "408", "410", "414", "417", "418", "422", "426", "428", "430", "434", "438", "440", "442", "446",
   "450", "454", "458", "462", "466", "470", "474", "478", "480", "484", "492", "496", "498", "499",
   "500", "504", "508", "512", "516", "520", "524", "528", "531", "533", "534", "535", "540", "548",
   "554", "558", "562", "566", "570", "574", "578", "580", "581", "583", "584", "585", "586", "591", "598",
   "600", "604", "608", "612", "616", "620", "624", "626", "630", "634", "638", "642", "643", "646",
   "652", "654", "659", "660", "662", "663", "666", "670", "674", "678", "682", "686", "688", "690", "694",
   "702", "703", "704", "705", "706", "710", "716", "724", "728", "729", "732", "740", "744", "748",
   "752", "756", "760", "762", "764", "768", "772", "776", "780", "784", "788", "792", "795", "796", "798",
   "800", "804", "807", "818", "826", "831", "832", "833", "834", "840",
   "850", "854", "858", "860", "862", "876", "882", "887", "894"].map String.data

/-- One C `while (s < e)` binary-search loop (lines 123-138 of
`lint_iso3166.c`), indexed by fuel: `some true` means the loop ended by
finding an exact match (`valid = 1`), `some false` means the bounds
crossed with no match, `none` means the fuel ran out while the loop would
still continue (never happens with fuel `≥ e - s`). -/
def bsearchLoop (tbl : List (List Char)) (cc : List Char) :
    Nat → Nat → Nat → Option Bool
  | 0, s, e => if s < e then none else some false
  | fuel + 1, s, e =>
    if s < e then
      let m := s + (e - s) / 2
      let cmp := strcmp (tbl.getD m []) cc
      if cmp < 0 then bsearchLoop tbl cc fuel (m + 1) e
      else if cmp > 0 then bsearchLoop tbl cc fuel s m
      else some true
    else some false

/-- The default lookup: run the binary-search loop over the whole table
with `s = 0`, `e = tbl.length` (and adequate fuel); `valid` is 1 exactly
when the loop found a match. -/
def bsearchLookup (tbl : List (List Char)) (cc : List Char) : Bool :=
  (bsearchLoop tbl cc tbl.length 0 tbl.length).getD false

/-- The `GS1_LINTER_ISO3166_LOOKUP` macro instantiated on the static
table, as in the default (non-custom) build. -/
def GS1_LINTER_ISO3166_LOOKUP (cc : List Char) : Bool :=
  bsearchLookup iso3166 cc

/-- The body of `gs1_lint_iso3166` (lines 143-162) after the lookup macro
has been substituted, with the lookup as an explicit parameter — this is
the compile-time extensibility hook of the pattern: a custom lookup sets
`valid` and the rest of the function is unchanged.  If `valid` the code
returns OK touching neither cell; otherwise it writes 0 through a
non-NULL `err_pos`, `strlen data` through a non-NULL `err_len`, and
returns the NOT-IN-SET code. -/
def gs1_lint_with_lookup (lookup : List Char → Bool) (data : List Char)
    (err_pos err_len : Option Nat) : LintOutcome :=
  let valid := lookup data
  if valid then
    { ret := GS1_LINTER_OK, errPosCell := err_pos, errLenCell := err_len }
  else
    { ret := GS1_LINTER_NOT_ISO3166,
      errPosCell := err_pos.map fun _ => 0,
      errLenCell := err_len.map fun _ => data.length }

/-- `gs1_lint_iso3166` (lines 76-163 of `lint_iso3166.c`) in its default
build: binary search over the static `iso3166` table. -/
def gs1_lint_iso3166 (data : List Char) (err_pos err_len : Option Nat) :
    LintOutcome :=
  gs1_lint_with_lookup GS1_LINTER_ISO3166_LOOKUP data err_pos err_len

/-- The validator pattern instantiated on an arbitrary Reference Set:
the same code as `gs1_lint_iso3166` with the static table abstracted
(the C source hard-codes `iso3166`; every other linter of the family
repeats this body over its own table). -/
def validate (tbl : List (List Char)) (data : List Char)
    (err_pos err_len : Option Nat) : LintOutcome :=
  gs1_lint_with_lookup (bsearchLookup tbl) data err_pos err_len

/-- Modelled from the spec: the naive reference membership test of §8
("a linear scan over the same table") against which the binary-search
lookup is compared — an entry-by-entry exact-match scan. -/
def linearLookup (tbl : List (List Char)) (cc : List Char) : Bool :=
  tbl.any fun entry => decide (strcmp entry cc = 0)

/-- Modelled from the spec: the validator with the default binary-search
lookup replaced, per the §4.1 extensibility hook, by the naive linear
scan over the same table. -/
def gs1_lint_iso3166_linear (data : List Char) (err_pos err_len : Option Nat) :
    LintOutcome :=
  gs1_lint_with_lookup (linearLookup iso3166) data err_pos err_len

/-! ## Unfolding and order lemmas -/

/-- Unfolding the loop at fuel zero. -/
theorem bsearchLoop_zero (tbl : List (List Char)) (cc : List Char) (s e : Nat) :
    bsearchLoop tbl cc 0 s e = if s < e then none else some false := rfl

/-- Unfolding one loop iteration, with the midpoint local inlined. -/
theorem bsearchLoop_succ (tbl : List (List Char)) (cc : List Char)
    (fuel s e : Nat) :
    bsearchLoop tbl cc (fuel + 1) s e =
      if s < e then
        if strcmp (tbl.getD (s + (e - s) / 2) []) cc < 0 then
          bsearchLoop tbl cc fuel (s + (e - s) / 2 + 1) e
        else if strcmp (tbl.getD (s + (e - s) / 2) []) cc > 0 then
          bsearchLoop tbl cc fuel s (s + (e - s) / 2)
        else some true
      else some false := rfl

/-- `strcmp` reports equality exactly on equal strings (byte-for-byte,
including length). -/
theorem strcmp_eq_zero_iff (a b : List Char) : strcmp a b = 0 ↔ a = b := by
  induction a generalizing b with
  | nil => cases b <;> simp [strcmp]
  | cons c1 s1 ih =>
    cases b with
    | nil => simp [strcmp]
    | cons c2 s2 =>
      simp only [strcmp]
      rcases lt_trichotomy c1 c2 with h | h | h
      · simp [h, ne_of_lt h]
      · subst h
        simp [lt_irrefl, ih s2]
      · simp [lt_asymm h, h, (ne_of_gt h : c1 ≠ c2)]

/-- Swapping the arguments of `strcmp` flips the sign. -/
theorem strcmp_swap (a b : List Char) : strcmp a b = -strcmp b a := by
  induction a generalizing b with
  | nil => cases b <;> simp [strcmp]
  | cons c1 s1 ih =>
    cases b with
    | nil => simp [strcmp]
    | cons c2 s2 =>
      simp only [strcmp]
      rcases lt_trichotomy c1 c2 with h | h | h
      · simp [h, lt_asymm h]
      · subst h
        simp [lt_irrefl, ih s2]
      · simp [h, lt_asymm h]

/-- Strings strictly below another in `strcmp` order are distinct from it. -/
theorem ne_of_strcmp_neg {a b : List Char} (h : strcmp a b < 0) : a ≠ b := by
  intro heq
  subst heq
  rw [(strcmp_eq_zero_iff a a).mpr rfl] at h
  omega

/-! ## Binary-search correctness -/

/-- `e - s` units of fuel always suffice: the interval shrinks strictly on
every iteration, so the loop never runs out of fuel (i.e. the C `while`
loop terminates). -/
theorem bsearchLoop_fuel_sufficient (tbl : List (List Char)) (cc : List Char) :
    ∀ fuel s e, e - s ≤ fuel → (bsearchLoop tbl cc fuel s e).isSome = true := by
  intro fuel
  induction fuel with
  | zero =>
    intro s e h
    rw [bsearchLoop_zero, if_neg (by omega)]
    rfl
  | succ fuel ih =>
    intro s e h
    rw [bsearchLoop_succ]
    by_cases hse : s < e
    · rw [if_pos hse]
      by_cases h1 : strcmp (tbl.getD (s + (e - s) / 2) []) cc < 0
      · rw [if_pos h1]
        exact ih (s + (e - s) / 2 + 1) e (by omega)
      · rw [if_neg h1]
        by_cases h2 : strcmp (tbl.getD (s + (e - s) / 2) []) cc > 0
        · rw [if_pos h2]
          exact ih s (s + (e - s) / 2) (by omega)
        · rw [if_neg h2]
          rfl
    · rw [if_neg hse]
      rfl

/-- If the loop ends with `valid = 1`, the probed entry is an exact match,
so the candidate is a member of the table. -/
theorem bsearchLoop_found_mem (tbl : List (List Char)) (cc : List Char) :
    ∀ fuel s e, e ≤ tbl.length →
      bsearchLoop tbl cc fuel s e = some true → cc ∈ tbl := by
  intro fuel
  induction fuel with
  | zero =>
    intro s e _ h
    rw [bsearchLoop_zero] at h
    split at h <;> simp_all
  | succ fuel ih =>
    intro s e he h
    rw [bsearchLoop_succ] at h
    by_cases hse : s < e
    · rw [if_pos hse] at h
      by_cases h1 : strcmp (tbl.getD (s + (e - s) / 2) []) cc < 0
      · rw [if_pos h1] at h
        exact ih (s + (e - s) / 2 + 1) e he h
      · rw [if_neg h1] at h
        by_cases h2 : strcmp (tbl.getD (s + (e - s) / 2) []) cc > 0
        · rw [if_pos h2] at h
          exact ih s (s + (e - s) / 2) (by omega) h
        · have h0 : strcmp (tbl.getD (s + (e - s) / 2) []) cc = 0 := by omega
          have hm : s + (e - s) / 2 < tbl.length := by omega
          have := (strcmp_eq_zero_iff _ _).mp h0
          rw [List.getD_eq_getElem tbl [] hm] at this
          rw [← this]
          exact List.getElem_mem hm
    · rw [if_neg hse] at h
      simp at h

/-- If the candidate sits in the table at an index inside the current
bounds and the table is strictly sorted, the loop finds it. -/
theorem bsearchLoop_mem_found (tbl : List (List Char)) (cc : List Char)
    (hsort : tbl.Pairwise (fun a b => strcmp a b < 0)) :
    ∀ fuel s e, e ≤ tbl.length → e - s ≤ fuel →
      ∀ i, s ≤ i → i < e → tbl.getD i [] = cc →
      bsearchLoop tbl cc fuel s e = some true := by
  intro fuel
  induction fuel with
  | zero =>
    intro s e _ hf i h1 h2 _
    omega
  | succ fuel ih =>
    intro s e he hf i h1 h2 hi
    have hse : s < e := lt_of_le_of_lt h1 h2
    have hmE : s + (e - s) / 2 < e := by omega
    have hmL : s + (e - s) / 2 < tbl.length := lt_of_lt_of_le hmE he
    have hiL : i < tbl.length := lt_of_lt_of_le h2 he
    have hpair := List.pairwise_iff_getElem.mp hsort
    rw [bsearchLoop_succ, if_pos hse]
    by_cases hlt : strcmp (tbl.getD (s + (e - s) / 2) []) cc < 0
    · rw [if_pos hlt]
      have him : s + (e - s) / 2 < i := by
        rcases lt_trichotomy i (s + (e - s) / 2) with h | h | h
        · exfalso
          have hp := hpair i (s + (e - s) / 2) hiL hmL h
          rw [List.getD_eq_getElem tbl [] hiL] at hi
          rw [hi] at hp
          rw [← List.getD_eq_getElem tbl [] hmL] at hp
          have hswap := strcmp_swap cc (tbl.getD (s + (e - s) / 2) [])
          omega
        · exfalso
          rw [← h] at hlt
          rw [hi, (strcmp_eq_zero_iff cc cc).mpr rfl] at hlt
          omega
        · exact h
      exact ih (s + (e - s) / 2 + 1) e he (by omega) i (by omega) h2 hi
    · rw [if_neg hlt]
      by_cases hgt : strcmp (tbl.getD (s + (e - s) / 2) []) cc > 0
      · rw [if_pos hgt]
        have him : i < s + (e - s) / 2 := by
          rcases lt_trichotomy i (s + (e - s) / 2) with h | h | h
          · exact h
          · exfalso
            rw [← h] at hgt
            rw [hi, (strcmp_eq_zero_iff cc cc).mpr rfl] at hgt
            omega
          · exfalso
            have hp := hpair (s + (e - s) / 2) i hmL hiL h
            rw [List.getD_eq_getElem tbl [] hiL] at hi
            rw [hi] at hp
            rw [← List.getD_eq_getElem tbl [] hmL] at hp
            omega
        exact ih s (s + (e - s) / 2) (le_of_lt hmL) (by omega) i h1 him hi
      · rw [if_neg hgt]

/-- For a strictly sorted table, the default binary-search lookup decides
exactly membership in the table. -/
theorem bsearchLookup_iff_mem (tbl : List (List Char))
    (hsort : tbl.Pairwise (fun a b => strcmp a b < 0)) (cc : List Char) :
    bsearchLookup tbl cc = true ↔ cc ∈ tbl := by
  unfold bsearchLookup
  constructor
  · intro h
    cases hloop : bsearchLoop tbl cc tbl.length 0 tbl.length with
    | none =>
      rw [hloop] at h
      simp at h
    | some b =>
      rw [hloop] at h
      simp at h
      subst h
      exact bsearchLoop_found_mem tbl cc tbl.length 0 tbl.length le_rfl hloop
  · intro h
    obtain ⟨i, hiL, hgi⟩ := List.mem_iff_getElem.mp h
    have hfound := bsearchLoop_mem_found tbl cc hsort tbl.length 0 tbl.length
      le_rfl (by omega) i (Nat.zero_le i) hiL
      (by rw [List.getD_eq_getElem tbl [] hiL]; exact hgi)
    rw [hfound]
    rfl

/-- The naive linear scan decides exactly membership in the table. -/
theorem linearLookup_iff_mem (tbl : List (List Char)) (cc : List Char) :
    linearLookup tbl cc = true ↔ cc ∈ tbl := by
  unfold linearLookup
  rw [List.any_eq_true]
  constructor
  · rintro ⟨entry, hmem, hd⟩
    rw [decide_eq_true_eq] at hd
    rw [← (strcmp_eq_zero_iff entry cc).mp hd]
    exact hmem
  · intro h
    exact ⟨cc, h, by rw [decide_eq_true_eq]; exact (strcmp_eq_zero_iff cc cc).mpr rfl⟩

/-- On any strictly sorted table the binary search and the linear scan
agree on every candidate. -/
theorem bsearchLookup_eq_linearLookup (tbl : List (List Char))
    (hsort : tbl.Pairwise (fun a b => strcmp a b < 0)) (cc : List Char) :
    bsearchLookup tbl cc = linearLookup tbl cc := by
  by_cases hm : cc ∈ tbl
  · rw [(bsearchLookup_iff_mem tbl hsort cc).mpr hm,
      (linearLookup_iff_mem tbl cc).mpr hm]
  · have b1 : bsearchLookup tbl cc = false := by
      cases hb : bsearchLookup tbl cc
      · rfl
      · exact absurd ((bsearchLookup_iff_mem tbl hsort cc).mp hb) hm
    have b2 : linearLookup tbl cc = false := by
      cases hb : linearLookup tbl cc
      · rfl
      · exact absurd ((linearLookup_iff_mem tbl cc).mp hb) hm
    rw [b1, b2]

/-- The static `iso3166` table is strictly ascending in `strcmp` order. -/
theorem iso3166_sorted : iso3166.Pairwise (fun a b => strcmp a b < 0) := by
  decide

/-! ## Claim theorems -/

/-- C1.  Completeness: every code string literally present in the static
`iso3166` Reference Set table ("004" through "894") is accepted —
`gs1_lint_iso3166` returns `GS1_LINTER_OK` on it. -/
theorem iso3166_completeness (c : List Char) (p l : Option Nat)
    (h : c ∈ iso3166) :
    (gs1_lint_iso3166 c p l).ret = GS1_LINTER_OK := by
  have hb : GS1_LINTER_ISO3166_LOOKUP c = true :=
    (bsearchLookup_iff_mem iso3166 iso3166_sorted c).mpr h
  simp [gs1_lint_iso3166, gs1_lint_with_lookup, hb]

theorem iso3166_completeness_witness :
    "004".data ∈ iso3166 ∧
      (gs1_lint_iso3166 "004".data none none).ret = GS1_LINTER_OK :=
  ⟨by decide, iso3166_completeness "004".data none none (by decide)⟩

/-- C2.  Soundness: every string not present in the Reference Set —
including the empty string, strings of the wrong length, strings with
non-digit characters, and strings one off a valid entry — is rejected
with `GS1_LINTER_NOT_ISO3166`, never `GS1_LINTER_OK`. -/
theorem iso3166_soundness (c : List Char) (p l : Option Nat)
    (h : c ∉ iso3166) :
    (gs1_lint_iso3166 c p l).ret = GS1_LINTER_NOT_ISO3166 := by
  have hb : GS1_LINTER_ISO3166_LOOKUP c = false := by
    cases hx : GS1_LINTER_ISO3166_LOOKUP c
    · rfl
    · exact absurd ((bsearchLookup_iff_mem iso3166 iso3166_sorted c).mp hx) h
  simp [gs1_lint_iso3166, gs1_lint_with_lookup, hb]

theorem iso3166_soundness_witness :
    "999".data ∉ iso3166 ∧
      (gs1_lint_iso3166 "999".data none none).ret = GS1_LINTER_NOT_ISO3166 :=
  ⟨by decide, iso3166_soundness "999".data none none (by decide)⟩

/-- C3.  Exactness of the error span: whenever `gs1_lint_iso3166` fails
and both out-pointers are non-NULL, it writes `*err_pos = 0` and
`*err_len = strlen(input)` — the whole input, never a sub-range (for the
empty string the written length is 0). -/
theorem iso3166_error_span (d : List Char) (p l : Nat)
    (h : (gs1_lint_iso3166 d (some p) (some l)).ret = GS1_LINTER_NOT_ISO3166) :
    gs1_lint_iso3166 d (some p) (some l) =
      ⟨GS1_LINTER_NOT_ISO3166, some 0, some d.length⟩ := by
  by_cases hb : GS1_LINTER_ISO3166_LOOKUP d
  · exfalso
    simp [gs1_lint_iso3166, gs1_lint_with_lookup, hb] at h
  · simp only [Bool.not_eq_true] at hb
    simp [gs1_lint_iso3166, gs1_lint_with_lookup, hb]

theorem iso3166_error_span_witness :
    (gs1_lint_iso3166 "".data (some 5) (some 7)).ret = GS1_LINTER_NOT_ISO3166 ∧
      gs1_lint_iso3166 "".data (some 5) (some 7) =
        ⟨GS1_LINTER_NOT_ISO3166, some 0, some ("".data.length)⟩ :=
  ⟨by decide, iso3166_error_span "".data 5 7 (by decide)⟩

/-- C4.  Reference Set well-formedness: the static `iso3166` table is a
sequence of fixed-width 3-character strings, sorted in strictly ascending
ordinal (byte) order, with no duplicate entries. -/
theorem iso3166_table_wf :
    iso3166.Pairwise (fun a b => strcmp a b < 0) ∧
      (∀ c ∈ iso3166, c.length = 3) ∧ iso3166.Nodup :=
  ⟨iso3166_sorted, by decide,
    iso3166_sorted.imp fun h => ne_of_strcmp_neg h⟩

/-- C5.  Termination of the search: for every candidate string and bounds
`s`, `e`, the binary-search loop of `gs1_lint_iso3166` completes within
`e - s` iterations (the interval size strictly decreases each iteration), so
given at least that much fuel it never runs out: it ends either by the
bounds crossing or at an exact match. -/
theorem bsearch_loop_terminates (cc : List Char) (s e fuel : Nat)
    (h : e - s ≤ fuel) :
    (bsearchLoop iso3166 cc fuel s e).isSome = true :=
  bsearchLoop_fuel_sufficient iso3166 cc fuel s e h

theorem bsearch_loop_terminates_witness :
    245 - 0 ≤ 245 ∧
      (bsearchLoop iso3166 "999".data 245 0 245).isSome = true :=
  ⟨by decide, bsearch_loop_terminates "999".data 0 245 245 (by decide)⟩

/-- C6.  Order independence of the lookup strategy: on the fixed sorted
`iso3166` table, the default binary-search lint and the variant whose
lookup is replaced (per the extensibility hook) by a naive linear scan
produce, for every input and every cell state, identical return codes and
identical `err_pos`/`err_len` cell contents. -/
theorem lint_lookup_strategy_equiv (d : List Char) (p l : Option Nat) :
    gs1_lint_iso3166 d p l = gs1_lint_iso3166_linear d p l := by
  have h : GS1_LINTER_ISO3166_LOOKUP d = linearLookup iso3166 d :=
    bsearchLookup_eq_linearLookup iso3166 iso3166_sorted d
  unfold gs1_lint_iso3166 gs1_lint_iso3166_linear gs1_lint_with_lookup
  rw [h]

/-- C7.  Boundary probing: instantiating the validator pattern on the
Reference Set {"008", "012", "032"}, "008" is accepted; "011" is rejected
with err_pos = 0 and err_len = 3; "0080" is rejected; and "" is rejected
with err_len = 0. -/
theorem boundary_probing_demo :
    (validate (["008", "012", "032"].map String.data) "008".data
        (some 7) (some 8)).ret = GS1_LINTER_OK ∧
      validate (["008", "012", "032"].map String.data) "011".data
        (some 7) (some 8) = ⟨GS1_LINTER_NOT_ISO3166, some 0, some 3⟩ ∧
      (validate (["008", "012", "032"].map String.data) "0080".data
        (some 7) (some 8)).ret = GS1_LINTER_NOT_ISO3166 ∧
      validate (["008", "012", "032"].map String.data) "".data
        (some 7) (some 8) = ⟨GS1_LINTER_NOT_ISO3166, some 0, some 0⟩ := by
  refine ⟨?_, ?_, ?_, ?_⟩ <;> decide

/-- C8.  Determinism and statelessness: the return code depends only on
the input string (not on the cell contents or pointer nullness), and
re-running the linter on the cells left by a previous call reproduces
that call's outcome exactly — no hidden state across calls. -/
theorem lint_deterministic_stateless (d : List Char)
    (p1 l1 p2 l2 : Option Nat) :
    (gs1_lint_iso3166 d p1 l1).ret = (gs1_lint_iso3166 d p2 l2).ret ∧
      gs1_lint_iso3166 d (gs1_lint_iso3166 d p1 l1).errPosCell
        (gs1_lint_iso3166 d p1 l1).errLenCell = gs1_lint_iso3166 d p1 l1 := by
  by_cases hb : GS1_LINTER_ISO3166_LOOKUP d
  · simp [gs1_lint_iso3166, gs1_lint_with_lookup, hb]
  · simp only [Bool.not_eq_true] at hb
    cases p1 <;> cases l1 <;>
      simp [gs1_lint_iso3166, gs1_lint_with_lookup, hb]

/-- C9.  NULL out-pointers are safe to pass: the return code does not
depend on the nullness of `err_pos`/`err_len`, and a NULL pointer is
never written through (its cell stays absent). -/
theorem lint_null_pointer_safety (d : List Char) (p l : Option Nat) :
    (gs1_lint_iso3166 d p l).ret = (gs1_lint_iso3166 d none none).ret ∧
      (gs1_lint_iso3166 d none l).errPosCell = none ∧
      (gs1_lint_iso3166 d p none).errLenCell = none := by
  by_cases hb : GS1_LINTER_ISO3166_LOOKUP d
  · simp [gs1_lint_iso3166, gs1_lint_with_lookup, hb]
  · simp only [Bool.not_eq_true] at hb
    simp [gs1_lint_iso3166, gs1_lint_with_lookup, hb]

/-- C10.  No write on success: when `gs1_lint_iso3166` returns
`GS1_LINTER_OK` it writes neither out-pointer — both cells keep their
prior values even when non-NULL. -/
theorem lint_no_write_on_success (d : List Char) (p l : Option Nat)
    (h : (gs1_lint_iso3166 d p l).ret = GS1_LINTER_OK) :
    gs1_lint_iso3166 d p l = ⟨GS1_LINTER_OK, p, l⟩ := by
  by_cases hb : GS1_LINTER_ISO3166_LOOKUP d
  · simp [gs1_lint_iso3166, gs1_lint_with_lookup, hb]
  · exfalso
    simp only [Bool.not_eq_true] at hb
    simp [gs1_lint_iso3166, gs1_lint_with_lookup, hb] at h

theorem lint_no_write_on_success_witness :
    (gs1_lint_iso3166 "004".data (some 5) (some 6)).ret = GS1_LINTER_OK ∧
      gs1_lint_iso3166 "004".data (some 5) (some 6) =
        ⟨GS1_LINTER_OK, some 5, some 6⟩ :=
  ⟨by decide, lint_no_write_on_success "004".data (some 5) (some 6) (by decide)⟩

end GS1
